import Mathlib

/-!
Shallow embedding of `main.cpp` (ADLX custom fan tuning sample).

The program is a linear sequence of calls into the proprietary ADLX SDK.
The SDK itself is opaque, so it is modelled as an environment `Env` that
fixes the outcome of every SDK call the program makes: whether each call
succeeds (`ADLX_SUCCEEDED` on its `ADLX_RESULT`), whether each returned
interface pointer is null, and the values the calls write through their
out-parameters.  The fan-tuning state list is modelled as a `List FanState`.

The program itself is embedded as pure functions that, given an `Env`,
return the trace of SDK calls performed (a `List Event`, in order) together
with the values the program computes (the process return code of `main`,
the state list passed to the final commit).  Each Lean definition mirrors
one C++ function of the source: `SetZeroRPM`, `SetFan` (via `SetFanRun`),
`WaitAndExit`, and `main` (via `mainRun`).
-/

/-- One fan-tuning state: a (fan speed, temperature) pair, as read from and
written to an `IADLXManualFanTuningState` (both `adlx_int` in the SDK). -/
structure FanState where
  speed : Int
  temperature : Int
deriving DecidableEq, Repr

/-- Outcomes of the SDK calls the program performs, fixed up front.
Boolean `...OK` fields say whether `ADLX_SUCCEEDED` holds of the call's
`ADLX_RESULT`; `...IsNull` fields say whether a returned interface pointer
is null; the remaining fields are the values the SDK writes through
out-parameters.  `zeroRPMState` is the value the variable `ZeroRPMenabled`
holds after the `GetZeroRPMState` call (the source checks that variable
without checking the call's result, so the value matters even on failure).
`fanTuningStates` is the list fetched by a successful `GetFanTuningStates`. -/
structure Env where
  adlxInitOK : Bool
  getGPUTuningServicesOK : Bool
  getGPUsOK : Bool
  gpuAtOK : Bool
  gpuIsNull : Bool
  isSupportedManualFanTuningOK : Bool
  manualFanTuningSupported : Bool
  getManualFanTuningOK : Bool
  manualFanTuningIfcIsNull : Bool
  manualFanTuningCastIsNull : Bool
  isSupportedZeroRPMOK : Bool
  zeroRPMSupported : Bool
  getZeroRPMStateOK : Bool
  zeroRPMState : Bool
  getFanTuningStatesOK : Bool
  fanTuningStates : List FanState
  statesAtOK : Bool
  isValidFanTuningStatesOK : Bool
deriving Repr

/-- The SDK calls the program can perform, with the data they carry. -/
inductive Event where
  | adlxInit
  | getGPUTuningServices
  | getGPUs
  | gpusAt (i : Nat)
  | isSupportedManualFanTuning
  | getManualFanTuning
  | isSupportedZeroRPM
  | getZeroRPMState
  | setZeroRPMState (enabled : Bool)
  | getFanTuningStates
  | statesAt (i : Nat)
  | getFanSpeed (i : Nat)
  | setFanSpeed (i : Nat) (v : Int)
  | getTemperature (i : Nat)
  | setTemperature (i : Nat) (v : Int)
  | isValidFanTuningStates
  | setFanTuningStates (states : Option (List FanState))
  | terminate
deriving DecidableEq, Repr

/-- Rank of an event in the program's step order (used to state that the
trace respects the order initialize, fetch services, fetch GPU list, fetch
GPU, check support, fetch interface, zero-RPM toggle, fan-curve mutation,
commit, terminate). -/
def stepOf : Event → Nat
  | .adlxInit => 0
  | .getGPUTuningServices => 1
  | .getGPUs => 2
  | .gpusAt _ => 3
  | .isSupportedManualFanTuning => 4
  | .getManualFanTuning => 5
  | .isSupportedZeroRPM => 6
  | .getZeroRPMState => 6
  | .setZeroRPMState _ => 6
  | .getFanTuningStates => 7
  | .statesAt _ => 7
  | .getFanSpeed _ => 7
  | .setFanSpeed _ _ => 7
  | .getTemperature _ => 7
  | .setTemperature _ _ => 7
  | .isValidFanTuningStates => 7
  | .setFanTuningStates _ => 8
  | .terminate => 9

/-- An event is a tuning event when it touches the zero-RPM setting or the
fan-tuning states (everything `SetZeroRPM` and `SetFan` do). -/
def isTuningEvent (e : Event) : Bool :=
  6 ≤ stepOf e && stepOf e ≤ 8

/-- An event is a mutation when it writes a setting to the SDK. -/
def isMutationEvent : Event → Bool
  | .setZeroRPMState _ => true
  | .setFanSpeed _ _ => true
  | .setTemperature _ _ => true
  | .setFanTuningStates _ => true
  | _ => false

/-- The commit event, as a Boolean test. -/
def isCommitEvent : Event → Bool
  | .setFanTuningStates _ => true
  | _ => false

/-- Local array `int FanSpeed[5] = { 25, 45, 50, 65, 90 };` of `SetFan`. -/
def FanSpeed (i : Nat) : Int :=
  [25, 45, 50, 65, 90].getD i 0

/-- Local array `int Temperature[5] = { 45, 50, 65, 85, 95 };` of `SetFan`. -/
def Temperature (i : Nat) : Int :=
  [45, 50, 65, 85, 95].getD i 0

/-- The five (temperature, speed) pairs the fan curve is driven to:
speeds 25, 45, 50, 65, 90 at temperatures 45, 50, 65, 85, 95. -/
def targetStates : List FanState :=
  [⟨25, 45⟩, ⟨45, 50⟩, ⟨50, 65⟩, ⟨65, 85⟩, ⟨90, 95⟩]

/-- One iteration of the loop in `SetFan`, at loop index `crt`, acting on the
state `oneState` fetched by `states->At(crt, &oneState)`: read the fan speed,
write `FanSpeed[crt]` only if the read speed differs (re-reading after the
write), then the same for the temperature.  Returns the mutated state and the
trace of SDK calls of this iteration. -/
def tuneOneState (crt : Nat) (oneState : FanState) : FanState × List Event :=
  (⟨if oneState.speed ≠ FanSpeed crt then FanSpeed crt else oneState.speed,
    if oneState.temperature ≠ Temperature crt then Temperature crt else oneState.temperature⟩,
    [Event.statesAt crt, Event.getFanSpeed crt]
      ++ (if oneState.speed ≠ FanSpeed crt then
            [Event.setFanSpeed crt (FanSpeed crt), Event.getFanSpeed crt]
          else [])
      ++ [Event.getTemperature crt]
      ++ (if oneState.temperature ≠ Temperature crt then
            [Event.setTemperature crt (Temperature crt), Event.getTemperature crt]
          else []))

/-- The loop `for (adlx_uint crt = states->Begin(); crt != states->End(); ++crt)`
of `SetFan`, starting at index `crt`: each state of the list is tuned in order.
Returns the mutated list and the concatenated trace. -/
def tuneFrom : Nat → List FanState → List FanState × List Event
  | _, [] => ([], [])
  | crt, oneState :: rest =>
    let head := tuneOneState crt oneState
    let tail := tuneFrom (crt + 1) rest
    (head.1 :: tail.1, head.2 ++ tail.2)

/-- Embedding of `SetZeroRPM(manualFanTuning, enabled)`: query zero-RPM
support; on failure or no support return at once; otherwise read the current
state (result unchecked) and write `enabled` only if the read state differs. -/
def SetZeroRPM (env : Env) (enabled : Bool) : List Event :=
  [Event.isSupportedZeroRPM] ++
    if !env.isSupportedZeroRPMOK || !env.zeroRPMSupported then []
    else
      [Event.getZeroRPMState] ++
        if env.zeroRPMState ≠ enabled then [Event.setZeroRPMState enabled] else []

/-- The zero-RPM state after `SetZeroRPM(manualFanTuning, enabled)` runs,
under the reading that a successful `GetZeroRPMState` reports the device
state and `SetZeroRPMState` applies its argument. -/
def SetZeroRPMfinal (env : Env) (enabled : Bool) : Bool :=
  if !env.isSupportedZeroRPMOK || !env.zeroRPMSupported then env.zeroRPMState
  else if env.zeroRPMState ≠ enabled then enabled
  else env.zeroRPMState

/-- The value of the `states` pointer of `SetFan` at the point of the
`IsValidFanTuningStates` call: `none` when `GetFanTuningStates` failed (the
pointer stays null), the tuned list when the fetch succeeded with size
exactly 5, and the fetched list unchanged for any other size. -/
def SetFanStates (env : Env) : Option (List FanState) :=
  if env.getFanTuningStatesOK then
    if env.fanTuningStates.length = 5 then some (tuneFrom 0 env.fanTuningStates).1
    else some env.fanTuningStates
  else none

/-- Trace of the per-state loop of `SetFan`: the loop body runs only when
`GetFanTuningStates` succeeded and the list has size exactly 5. -/
def SetFanLoopTrace (env : Env) : List Event :=
  if env.getFanTuningStatesOK then
    if env.fanTuningStates.length = 5 then (tuneFrom 0 env.fanTuningStates).2
    else []
  else []

/-- Embedding of `SetFan(manualFanTuning)`: fetch the fan-tuning state list;
if the fetch succeeded and the list has size exactly 5, tune each state in
order; in every case (even when the fetch failed and the list pointer is
null, modelled `none`) call `IsValidFanTuningStates` on the list and, exactly
when validation succeeds, commit it with `SetFanTuningStates`. -/
def SetFan (env : Env) : List Event :=
  [Event.getFanTuningStates] ++ SetFanLoopTrace env ++ [Event.isValidFanTuningStates] ++
    if env.isValidFanTuningStatesOK then [Event.setFanTuningStates (SetFanStates env)] else []

/-- Embedding of `WaitAndExit(msg, retCode)`: print the message when present,
pause, and return `retCode` unchanged (printing and pausing have no effect on
the returned code). -/
def WaitAndExit (_hasMsg : Bool) (retCode : Int) : Int :=
  retCode

/-- Embedding of `main()`: the return code together with the trace of SDK
calls, following the source line by line.  Every failure branch after a
successful `Initialize` calls `Terminate` and returns through `WaitAndExit`
with code 0; the success path calls `SetZeroRPM(·, false)`, then `SetFan`,
then `Terminate`, and returns 0. -/
def mainRun (env : Env) : Int × List Event :=
  let e0 := [Event.adlxInit]
  if env.adlxInitOK then
    let e1 := e0 ++ [Event.getGPUTuningServices]
    if !env.getGPUTuningServicesOK then
      (WaitAndExit true 0, e1 ++ [Event.terminate])
    else
      let e2 := e1 ++ [Event.getGPUs]
      if !env.getGPUsOK then
        (WaitAndExit true 0, e2 ++ [Event.terminate])
      else
        let e3 := e2 ++ [Event.gpusAt 0]
        if !env.gpuAtOK || env.gpuIsNull then
          (WaitAndExit true 0, e3 ++ [Event.terminate])
        else
          let e4 := e3 ++ [Event.isSupportedManualFanTuning]
          if !env.isSupportedManualFanTuningOK || !env.manualFanTuningSupported then
            (WaitAndExit true 0, e4 ++ [Event.terminate])
          else
            let e5 := e4 ++ [Event.getManualFanTuning]
            if !env.getManualFanTuningOK || env.manualFanTuningIfcIsNull then
              (WaitAndExit true 0, e5 ++ [Event.terminate])
            else if env.manualFanTuningCastIsNull then
              (WaitAndExit true 0, e5 ++ [Event.terminate])
            else
              (0, e5 ++ SetZeroRPM env false ++ SetFan env ++ [Event.terminate])
  else
    (WaitAndExit true 0, e0)

/-- Return code of `main`. -/
def mainRet (env : Env) : Int :=
  (mainRun env).1

/-- Trace of SDK calls of one run of `main`. -/
def mainTrace (env : Env) : List Event :=
  (mainRun env).2

/-- The guard under which `GetGPUTuningServices` is reached. -/
def guardInit (env : Env) : Bool :=
  env.adlxInitOK

/-- The guard under which `GetGPUs` is reached. -/
def guardSvc (env : Env) : Bool :=
  guardInit env && env.getGPUTuningServicesOK

/-- The guard under which `gpus->At(0, ...)` is reached. -/
def guardGpus (env : Env) : Bool :=
  guardSvc env && env.getGPUsOK

/-- The guard under which `IsSupportedManualFanTuning` is reached. -/
def guardGpu (env : Env) : Bool :=
  guardGpus env && env.gpuAtOK && !env.gpuIsNull

/-- The guard under which `GetManualFanTuning` is reached. -/
def guardSupport (env : Env) : Bool :=
  guardGpu env && env.isSupportedManualFanTuningOK && env.manualFanTuningSupported

/-- The guard under which `SetZeroRPM` and `SetFan` are reached. -/
def guardMFT (env : Env) : Bool :=
  guardSupport env && env.getManualFanTuningOK && !env.manualFanTuningIfcIsNull
    && !env.manualFanTuningCastIsNull

/-- An environment in which every SDK call succeeds, the GPU supports
everything, zero RPM is currently enabled, and the fetched state list
already equals the target curve. -/
def envAllOK : Env :=
  { adlxInitOK := true
    getGPUTuningServicesOK := true
    getGPUsOK := true
    gpuAtOK := true
    gpuIsNull := false
    isSupportedManualFanTuningOK := true
    manualFanTuningSupported := true
    getManualFanTuningOK := true
    manualFanTuningIfcIsNull := false
    manualFanTuningCastIsNull := false
    isSupportedZeroRPMOK := true
    zeroRPMSupported := true
    getZeroRPMStateOK := true
    zeroRPMState := true
    getFanTuningStatesOK := true
    fanTuningStates := targetStates
    statesAtOK := true
    isValidFanTuningStatesOK := true }

/-- Order relation on events induced by the program's step order. -/
def stepLE (a b : Event) : Prop :=
  stepOf a ≤ stepOf b

/-- Environment in which everything succeeds except `GetFanTuningStates`. -/
def envNoStates : Env :=
  { envAllOK with getFanTuningStatesOK := false, isValidFanTuningStatesOK := false }

/-- Environment in which everything succeeds except `GetGPUs`. -/
def envNoGpus : Env :=
  { envAllOK with getGPUsOK := false }

/-- Environment in which everything succeeds except `GetZeroRPMState`, whose
out-parameter reads back `true` even though the call failed. -/
def envBadZeroRead : Env :=
  { envAllOK with getZeroRPMStateOK := false, zeroRPMState := true }

/-- Environment in which everything succeeds but the fetched fan-tuning
state list has size 3 rather than 5. -/
def envShortList : Env :=
  { envAllOK with fanTuningStates := [⟨10, 20⟩, ⟨30, 40⟩, ⟨50, 60⟩] }

/-- Environment in which everything succeeds except `gpus->At(0, ...)`. -/
def envNoGpu : Env :=
  { envAllOK with gpuAtOK := false }

/-- Environment in which every call succeeds but the GPU does not support
manual fan tuning. -/
def envUnsupported : Env :=
  { envAllOK with manualFanTuningSupported := false }

/-- Environment in which every call succeeds and the fetched list has five
states, all of them away from the target curve. -/
def envNeedsTuning : Env :=
  { envAllOK with fanTuningStates := [⟨0, 0⟩, ⟨0, 0⟩, ⟨0, 0⟩, ⟨0, 0⟩, ⟨0, 0⟩] }

/-! Helper lemmas about the sub-traces. -/

theorem tuneOneState_fst (crt : Nat) (st : FanState) :
    (tuneOneState crt st).1 = ⟨FanSpeed crt, Temperature crt⟩ := by
  simp only [tuneOneState]
  split <;> split <;> simp_all

theorem tuneOneState_steps (crt : Nat) (st : FanState) :
    ((tuneOneState crt st).2).all (fun e => stepOf e == 7) = true := by
  simp only [tuneOneState]
  split <;> split <;> rfl

theorem stepOf_of_mem_tuneOneState {crt : Nat} {st : FanState} {e : Event}
    (h : e ∈ (tuneOneState crt st).2) : stepOf e = 7 := by
  have h2 := tuneOneState_steps crt st
  rw [List.all_eq_true] at h2
  simpa using h2 e h

theorem stepOf_of_mem_tuneFrom {states : List FanState} :
    ∀ {crt : Nat} {e : Event}, e ∈ (tuneFrom crt states).2 → stepOf e = 7 := by
  induction states with
  | nil =>
    intro crt e h
    simp [tuneFrom] at h
  | cons st rest ih =>
    intro crt e h
    simp only [tuneFrom, List.mem_append] at h
    rcases h with h | h
    · exact stepOf_of_mem_tuneOneState h
    · exact ih h

theorem stepOf_of_mem_SetZeroRPM {env : Env} {b : Bool} {e : Event}
    (h : e ∈ SetZeroRPM env b) : stepOf e = 6 := by
  simp only [SetZeroRPM, List.singleton_append, List.mem_cons] at h
  rcases h with rfl | h
  · rfl
  · split at h
    · simp at h
    · simp only [List.singleton_append, List.mem_cons] at h
      rcases h with rfl | h
      · rfl
      · split at h
        · simp only [List.mem_singleton] at h
          subst h
          rfl
        · simp at h

theorem stepOf_of_mem_SetFan {env : Env} {e : Event}
    (h : e ∈ SetFan env) : 7 ≤ stepOf e ∧ stepOf e ≤ 8 := by
  simp only [SetFan, List.mem_append] at h
  rcases h with ((h | h) | h) | h
  · simp only [List.mem_singleton] at h
    subst h
    exact ⟨le_refl _, by simp [stepOf]⟩
  · simp only [SetFanLoopTrace] at h
    split at h
    · split at h
      · have := stepOf_of_mem_tuneFrom h
        omega
      · simp at h
    · simp at h
  · simp only [List.mem_singleton] at h
    subst h
    exact ⟨le_refl _, by simp [stepOf]⟩
  · split at h
    · simp only [List.mem_singleton] at h
      subst h
      exact ⟨by simp [stepOf], le_refl _⟩
    · simp at h

theorem mainTrace_eq (env : Env) :
    mainTrace env =
      [Event.adlxInit]
        ++ (if guardInit env then [Event.getGPUTuningServices] else [])
        ++ (if guardSvc env then [Event.getGPUs] else [])
        ++ (if guardGpus env then [Event.gpusAt 0] else [])
        ++ (if guardGpu env then [Event.isSupportedManualFanTuning] else [])
        ++ (if guardSupport env then [Event.getManualFanTuning] else [])
        ++ (if guardMFT env then SetZeroRPM env false ++ SetFan env else [])
        ++ (if guardInit env then [Event.terminate] else []) := by
  simp only [mainTrace, mainRun, guardMFT, guardSupport, guardGpu, guardGpus, guardSvc,
    guardInit]
  split_ifs <;> simp_all

theorem pairwise_stepLE_of_all_eq {l : List Event} {c : Nat}
    (h : ∀ e ∈ l, stepOf e = c) : l.Pairwise stepLE := by
  induction l with
  | nil => exact List.Pairwise.nil
  | cons x xs ih =>
    refine List.Pairwise.cons (fun y hy => ?_) (ih fun z hz => h z (List.mem_cons_of_mem _ hz))
    unfold stepLE
    rw [h x (List.mem_cons_self _ _), h y (List.mem_cons_of_mem _ hy)]

theorem stepOf_of_mem_SetFanLoopTrace {env : Env} {e : Event}
    (h : e ∈ SetFanLoopTrace env) : stepOf e = 7 := by
  simp only [SetFanLoopTrace] at h
  split at h
  · split at h
    · exact stepOf_of_mem_tuneFrom h
    · simp at h
  · simp at h

theorem pairwise_stepLE_SetZeroRPM (env : Env) (b : Bool) :
    (SetZeroRPM env b).Pairwise stepLE :=
  pairwise_stepLE_of_all_eq (fun _ he => stepOf_of_mem_SetZeroRPM he)

theorem pairwise_stepLE_SetFan (env : Env) : (SetFan env).Pairwise stepLE := by
  unfold SetFan
  refine List.pairwise_append.mpr ⟨List.pairwise_append.mpr ⟨List.pairwise_append.mpr
    ⟨?_, ?_, ?_⟩, ?_, ?_⟩, ?_, ?_⟩
  · simp [stepLE]
  · exact pairwise_stepLE_of_all_eq (fun _ he => stepOf_of_mem_SetFanLoopTrace he)
  · intro a ha b hb
    simp only [List.mem_singleton] at ha
    subst ha
    unfold stepLE
    rw [stepOf_of_mem_SetFanLoopTrace hb]
    simp [stepOf]
  · simp [stepLE]
  · intro a ha b hb
    simp only [List.mem_singleton] at hb
    subst hb
    simp only [List.mem_append, List.mem_singleton] at ha
    unfold stepLE
    have h7 : stepOf a ≤ 7 := by
      rcases ha with ha | ha
      · subst ha; exact le_refl _
      · exact le_of_eq (stepOf_of_mem_SetFanLoopTrace ha)
    simpa [stepOf] using h7
  · split
    · simp [stepLE]
    · exact List.Pairwise.nil
  · intro a ha b hb
    have hb8 : stepOf b = 8 := by
      split at hb
      · simp only [List.mem_singleton] at hb
        subst hb
        rfl
      · simp at hb
    simp only [List.mem_append, List.mem_singleton] at ha
    unfold stepLE
    rw [hb8]
    rcases ha with (ha | ha) | ha
    · subst ha; simp [stepOf]
    · rw [stepOf_of_mem_SetFanLoopTrace ha]; omega
    · subst ha; simp [stepOf]

theorem pairwise_stepLE_append {l₁ l₂ : List Event} {m : Nat}
    (h₁ : l₁.Pairwise stepLE) (h₂ : l₂.Pairwise stepLE)
    (hb₁ : ∀ e ∈ l₁, stepOf e ≤ m) (hb₂ : ∀ e ∈ l₂, m ≤ stepOf e) :
    (l₁ ++ l₂).Pairwise stepLE :=
  List.pairwise_append.mpr ⟨h₁, h₂, fun a ha b hb => le_trans (hb₁ a ha) (hb₂ b hb)⟩

theorem all_le_append {l₁ l₂ : List Event} {m : Nat}
    (h₁ : ∀ e ∈ l₁, stepOf e ≤ m) (h₂ : ∀ e ∈ l₂, stepOf e ≤ m) :
    ∀ e ∈ l₁ ++ l₂, stepOf e ≤ m := by
  intro e he
  rcases List.mem_append.mp he with h | h
  · exact h₁ e h
  · exact h₂ e h

theorem stepOf_of_mem_tuning {env : Env} {e : Event}
    (h : e ∈ SetZeroRPM env false ++ SetFan env) : 6 ≤ stepOf e ∧ stepOf e ≤ 8 := by
  rcases List.mem_append.mp h with h | h
  · rw [stepOf_of_mem_SetZeroRPM h]
    omega
  · have := stepOf_of_mem_SetFan h
    omega

theorem pairwise_stepLE_tuning (env : Env) :
    (SetZeroRPM env false ++ SetFan env).Pairwise stepLE := by
  refine pairwise_stepLE_append (m := 7) (pairwise_stepLE_SetZeroRPM env false)
    (pairwise_stepLE_SetFan env) ?_ ?_
  · intro e he
    rw [stepOf_of_mem_SetZeroRPM he]
    omega
  · intro e he
    exact (stepOf_of_mem_SetFan he).1

theorem pairwise_stepLE_mainTrace (env : Env) : (mainTrace env).Pairwise stepLE := by
  rw [mainTrace_eq]
  have s1b : ∀ e ∈ ([Event.adlxInit] : List Event), stepOf e ≤ 0 := by
    intro e he
    simp only [List.mem_singleton] at he
    subst he
    exact le_refl _
  have s2 : ∀ e ∈ (if guardInit env then [Event.getGPUTuningServices] else []), stepOf e = 1 := by
    intro e he
    split at he <;> simp_all [stepOf]
  have s3 : ∀ e ∈ (if guardSvc env then [Event.getGPUs] else []), stepOf e = 2 := by
    intro e he
    split at he <;> simp_all [stepOf]
  have s4 : ∀ e ∈ (if guardGpus env then [Event.gpusAt 0] else []), stepOf e = 3 := by
    intro e he
    split at he <;> simp_all [stepOf]
  have s5 : ∀ e ∈ (if guardGpu env then [Event.isSupportedManualFanTuning] else []),
      stepOf e = 4 := by
    intro e he
    split at he <;> simp_all [stepOf]
  have s6 : ∀ e ∈ (if guardSupport env then [Event.getManualFanTuning] else []),
      stepOf e = 5 := by
    intro e he
    split at he <;> simp_all [stepOf]
  have s7 : ∀ e ∈ (if guardMFT env then SetZeroRPM env false ++ SetFan env else []),
      6 ≤ stepOf e ∧ stepOf e ≤ 8 := by
    intro e he
    split at he
    · exact stepOf_of_mem_tuning he
    · simp at he
  have s8 : ∀ e ∈ (if guardInit env then [Event.terminate] else []), stepOf e = 9 := by
    intro e he
    split at he <;> simp_all [stepOf]
  have iteP : ∀ (c : Bool) (x : Event), (if c then [x] else []).Pairwise stepLE := by
    intro c x
    split
    · simp [stepLE]
    · exact List.Pairwise.nil
  have p2 := pairwise_stepLE_append (m := 1) (by simp [stepLE]) (iteP (guardInit env) _)
    (fun e he => le_trans (s1b e he) (by omega)) (fun e he => le_of_eq (s2 e he).symm)
  have b2 := all_le_append (m := 1) (fun e he => le_trans (s1b e he) (by omega))
    (fun e he => le_of_eq (s2 e he))
  have p3 := pairwise_stepLE_append (m := 2) p2 (iteP (guardSvc env) _)
    (fun e he => le_trans (b2 e he) (by omega)) (fun e he => le_of_eq (s3 e he).symm)
  have b3 := all_le_append (m := 2) (fun e he => le_trans (b2 e he) (by omega))
    (fun e he => le_of_eq (s3 e he))
  have p4 := pairwise_stepLE_append (m := 3) p3 (iteP (guardGpus env) _)
    (fun e he => le_trans (b3 e he) (by omega)) (fun e he => le_of_eq (s4 e he).symm)
  have b4 := all_le_append (m := 3) (fun e he => le_trans (b3 e he) (by omega))
    (fun e he => le_of_eq (s4 e he))
  have p5 := pairwise_stepLE_append (m := 4) p4 (iteP (guardGpu env) _)
    (fun e he => le_trans (b4 e he) (by omega)) (fun e he => le_of_eq (s5 e he).symm)
  have b5 := all_le_append (m := 4) (fun e he => le_trans (b4 e he) (by omega))
    (fun e he => le_of_eq (s5 e he))
  have p6 := pairwise_stepLE_append (m := 5) p5 (iteP (guardSupport env) _)
    (fun e he => le_trans (b5 e he) (by omega)) (fun e he => le_of_eq (s6 e he).symm)
  have b6 := all_le_append (m := 5) (fun e he => le_trans (b5 e he) (by omega))
    (fun e he => le_of_eq (s6 e he))
  have p7tun : (if guardMFT env then SetZeroRPM env false ++ SetFan env else []).Pairwise
      stepLE := by
    split
    · exact pairwise_stepLE_tuning env
    · exact List.Pairwise.nil
  have p7 := pairwise_stepLE_append (m := 6) p6 p7tun
    (fun e he => le_trans (b6 e he) (by omega)) (fun e he => (s7 e he).1)
  have b7 := all_le_append (m := 8) (fun e he => le_trans (b6 e he) (by omega))
    (fun e he => (s7 e he).2)
  exact pairwise_stepLE_append (m := 9) p7 (iteP (guardInit env) _)
    (fun e he => le_trans (b7 e he) (by omega)) (fun e he => le_of_eq (s8 e he).symm)

theorem mem_ite_nil_right {α : Type} {c : Prop} [Decidable c] {l : List α} {e : α} :
    (e ∈ if c then l else []) ↔ c ∧ e ∈ l := by
  split <;> simp_all

theorem terminate_not_mem_tuning (env : Env) :
    Event.terminate ∉ SetZeroRPM env false ++ SetFan env := by
  intro h
  have := stepOf_of_mem_tuning h
  simp [stepOf] at this

theorem getFanTuningStates_mem_SetFan (env : Env) :
    Event.getFanTuningStates ∈ SetFan env := by
  simp [SetFan]

theorem adlxInit_mem_mainTrace (env : Env) : Event.adlxInit ∈ mainTrace env := by
  rw [mainTrace_eq]
  simp

theorem svc_mem_mainTrace (env : Env) :
    Event.getGPUTuningServices ∈ mainTrace env ↔ guardInit env = true := by
  rw [mainTrace_eq]
  have h := fun hh => @stepOf_of_mem_tuning env Event.getGPUTuningServices hh
  simp only [List.mem_append, mem_ite_nil_right, List.mem_singleton, List.mem_cons,
    List.not_mem_nil] at h ⊢
  simp [stepOf] at h
  tauto

theorem getGPUs_mem_mainTrace (env : Env) :
    Event.getGPUs ∈ mainTrace env ↔ guardSvc env = true := by
  rw [mainTrace_eq]
  have h := fun hh => @stepOf_of_mem_tuning env Event.getGPUs hh
  simp only [List.mem_append, mem_ite_nil_right, List.mem_singleton, List.mem_cons,
    List.not_mem_nil] at h ⊢
  simp [stepOf] at h
  tauto

theorem gpusAt_mem_mainTrace (env : Env) :
    Event.gpusAt 0 ∈ mainTrace env ↔ guardGpus env = true := by
  rw [mainTrace_eq]
  have h := fun hh => @stepOf_of_mem_tuning env (Event.gpusAt 0) hh
  simp only [List.mem_append, mem_ite_nil_right, List.mem_singleton, List.mem_cons,
    List.not_mem_nil] at h ⊢
  simp [stepOf] at h
  tauto

theorem gpusAt_only_zero (env : Env) (i : Nat) (h : Event.gpusAt i ∈ mainTrace env) :
    i = 0 := by
  rw [mainTrace_eq] at h
  have ht := fun hh => @stepOf_of_mem_tuning env (Event.gpusAt i) hh
  simp only [List.mem_append, mem_ite_nil_right, List.mem_singleton, List.mem_cons,
    List.not_mem_nil] at h
  simp [stepOf] at ht
  simp_all

theorem supportCheck_mem_mainTrace (env : Env) :
    Event.isSupportedManualFanTuning ∈ mainTrace env ↔ guardGpu env = true := by
  rw [mainTrace_eq]
  have h := fun hh =>
    @stepOf_of_mem_tuning env Event.isSupportedManualFanTuning hh
  simp only [List.mem_append, mem_ite_nil_right, List.mem_singleton, List.mem_cons,
    List.not_mem_nil] at h ⊢
  simp [stepOf] at h
  tauto

theorem getMFT_mem_mainTrace (env : Env) :
    Event.getManualFanTuning ∈ mainTrace env ↔ guardSupport env = true := by
  rw [mainTrace_eq]
  have h := fun hh => @stepOf_of_mem_tuning env Event.getManualFanTuning hh
  simp only [List.mem_append, mem_ite_nil_right, List.mem_singleton, List.mem_cons,
    List.not_mem_nil] at h ⊢
  simp [stepOf] at h
  tauto

theorem getFanTuningStates_mem_mainTrace (env : Env) :
    Event.getFanTuningStates ∈ mainTrace env ↔ guardMFT env = true := by
  rw [mainTrace_eq]
  simp only [List.mem_append, mem_ite_nil_right, List.mem_singleton, List.mem_cons,
    List.not_mem_nil]
  have h := getFanTuningStates_mem_SetFan env
  constructor
  · intro hh
    rcases hh with ((((((hh | hh) | hh) | hh) | hh) | hh) | hh) | hh <;> simp_all
  · intro hh
    exact Or.inl (Or.inr ⟨hh, Or.inr h⟩)

theorem terminate_mem_mainTrace (env : Env) :
    Event.terminate ∈ mainTrace env ↔ guardInit env = true := by
  rw [mainTrace_eq]
  have h := terminate_not_mem_tuning env
  simp only [List.mem_append, mem_ite_nil_right, List.mem_singleton, List.mem_cons,
    List.not_mem_nil] at h ⊢
  tauto

theorem count_terminate_mainTrace (env : Env) :
    (mainTrace env).count Event.terminate = if guardInit env = true then 1 else 0 := by
  rw [mainTrace_eq]
  have h0 : (SetZeroRPM env false ++ SetFan env).count Event.terminate = 0 :=
    List.count_eq_zero.mpr (terminate_not_mem_tuning env)
  simp only [List.count_append]
  split_ifs <;> simp_all [List.count_cons, List.count_nil]

theorem mutation_is_tuning {e : Event} (h : isMutationEvent e = true) :
    isTuningEvent e = true := by
  cases e <;> simp_all [isMutationEvent, isTuningEvent, stepOf]

theorem no_tuning_of_guardMFT_false {env : Env} (h : guardMFT env = false) :
    (mainTrace env).all (fun e => !isTuningEvent e) = true := by
  rw [List.all_eq_true]
  intro e he
  rw [mainTrace_eq] at he
  simp only [List.mem_append, mem_ite_nil_right, List.mem_singleton] at he
  rcases he with (((((((rfl | ⟨_, rfl⟩) | ⟨_, rfl⟩) | ⟨_, rfl⟩) | ⟨_, rfl⟩) | ⟨_, rfl⟩)
    | ⟨hg, _⟩) | ⟨_, rfl⟩)
  · rfl
  · rfl
  · rfl
  · rfl
  · rfl
  · rfl
  · rw [h] at hg
    exact absurd hg (by simp)
  · rfl

theorem setFanTuningStates_mem_SetFan (env : Env) (s : Option (List FanState)) :
    Event.setFanTuningStates s ∈ SetFan env ↔
      env.isValidFanTuningStatesOK = true ∧ s = SetFanStates env := by
  simp only [SetFan, List.mem_append, mem_ite_nil_right, List.mem_singleton]
  constructor
  · rintro (((h | h) | h) | ⟨hv, he⟩)
    · simp at h
    · have := stepOf_of_mem_SetFanLoopTrace h
      simp [stepOf] at this
    · simp at h
    · cases he
      exact ⟨hv, rfl⟩
  · rintro ⟨hv, rfl⟩
    exact Or.inr ⟨hv, rfl⟩

theorem setFanTuningStates_mem_mainTrace (env : Env) (s : Option (List FanState)) :
    Event.setFanTuningStates s ∈ mainTrace env ↔
      guardMFT env = true ∧ env.isValidFanTuningStatesOK = true ∧ s = SetFanStates env := by
  rw [mainTrace_eq]
  simp only [List.mem_append, mem_ite_nil_right, List.mem_singleton]
  constructor
  · rintro (((((((h | ⟨_, h⟩) | ⟨_, h⟩) | ⟨_, h⟩) | ⟨_, h⟩) | ⟨_, h⟩) | ⟨hg, hm⟩) | ⟨_, h⟩)
    · simp at h
    · simp at h
    · simp at h
    · simp at h
    · simp at h
    · simp at h
    · rcases hm with hm | hm
      · have := stepOf_of_mem_SetZeroRPM hm
        simp [stepOf] at this
      · have := (setFanTuningStates_mem_SetFan env s).mp hm
        exact ⟨hg, this⟩
    · simp at h
  · rintro ⟨hg, hv, rfl⟩
    exact Or.inl (Or.inr ⟨hg, Or.inr ((setFanTuningStates_mem_SetFan env _).mpr ⟨hv, rfl⟩)⟩)

theorem setZeroRPMState_mem_SetZeroRPM (env : Env) (b enabled : Bool) :
    Event.setZeroRPMState b ∈ SetZeroRPM env enabled ↔
      env.isSupportedZeroRPMOK = true ∧ env.zeroRPMSupported = true ∧
        env.zeroRPMState ≠ enabled ∧ b = enabled := by
  unfold SetZeroRPM
  split_ifs with h1 h2 <;> simp_all
  intro h3 h4
  rcases h1 with h1 | h1 <;> simp_all

theorem setFanSpeed_mem_tuneOneState {crt i : Nat} {st : FanState} {v : Int}
    (h : Event.setFanSpeed i v ∈ (tuneOneState crt st).2) :
    i = crt ∧ st.speed ≠ FanSpeed crt ∧ v = FanSpeed crt := by
  simp only [tuneOneState, List.mem_append, List.mem_cons, List.mem_singleton] at h
  split_ifs at h <;> simp_all

theorem setTemperature_mem_tuneOneState {crt i : Nat} {st : FanState} {v : Int}
    (h : Event.setTemperature i v ∈ (tuneOneState crt st).2) :
    i = crt ∧ st.temperature ≠ Temperature crt ∧ v = Temperature crt := by
  simp only [tuneOneState, List.mem_append, List.mem_cons, List.mem_singleton] at h
  split_ifs at h <;> simp_all

theorem setFanSpeed_mem_tuneFrom {states : List FanState} :
    ∀ {crt i : Nat} {v : Int}, Event.setFanSpeed i v ∈ (tuneFrom crt states).2 →
      ∃ st, states[i - crt]? = some st ∧ crt ≤ i ∧ st.speed ≠ FanSpeed i ∧
        v = FanSpeed i := by
  induction states with
  | nil =>
    intro crt i v h
    simp [tuneFrom] at h
  | cons st rest ih =>
    intro crt i v h
    simp only [tuneFrom, List.mem_append] at h
    rcases h with h | h
    · obtain ⟨rfl, hne, rfl⟩ := setFanSpeed_mem_tuneOneState h
      exact ⟨st, by simp, le_refl _, hne, rfl⟩
    · obtain ⟨st', hget, hle, hne, hv⟩ := ih h
      refine ⟨st', ?_, by omega, hne, hv⟩
      have : i - crt = (i - (crt + 1)) + 1 := by omega
      rw [this]
      simpa using hget

theorem setTemperature_mem_tuneFrom {states : List FanState} :
    ∀ {crt i : Nat} {v : Int}, Event.setTemperature i v ∈ (tuneFrom crt states).2 →
      ∃ st, states[i - crt]? = some st ∧ crt ≤ i ∧ st.temperature ≠ Temperature i ∧
        v = Temperature i := by
  induction states with
  | nil =>
    intro crt i v h
    simp [tuneFrom] at h
  | cons st rest ih =>
    intro crt i v h
    simp only [tuneFrom, List.mem_append] at h
    rcases h with h | h
    · obtain ⟨rfl, hne, rfl⟩ := setTemperature_mem_tuneOneState h
      exact ⟨st, by simp, le_refl _, hne, rfl⟩
    · obtain ⟨st', hget, hle, hne, hv⟩ := ih h
      refine ⟨st', ?_, by omega, hne, hv⟩
      have : i - crt = (i - (crt + 1)) + 1 := by omega
      rw [this]
      simpa using hget

theorem setFanSpeed_mem_SetFan {env : Env} {i : Nat} {v : Int}
    (h : Event.setFanSpeed i v ∈ SetFan env) :
    env.getFanTuningStatesOK = true ∧ env.fanTuningStates.length = 5 ∧
      ∃ st, env.fanTuningStates[i]? = some st ∧ st.speed ≠ FanSpeed i ∧
        v = FanSpeed i := by
  simp only [SetFan, List.mem_append, mem_ite_nil_right, List.mem_singleton] at h
  rcases h with ((h | h) | h) | ⟨_, h⟩
  · simp at h
  · simp only [SetFanLoopTrace] at h
    split at h
    · split at h
      · obtain ⟨st, hget, _, hne, hv⟩ := setFanSpeed_mem_tuneFrom h
        simp only [Nat.sub_zero] at hget
        exact ⟨by assumption, by assumption, st, hget, hne, hv⟩
      · simp at h
    · simp at h
  · simp at h
  · simp at h

theorem setTemperature_mem_SetFan {env : Env} {i : Nat} {v : Int}
    (h : Event.setTemperature i v ∈ SetFan env) :
    env.getFanTuningStatesOK = true ∧ env.fanTuningStates.length = 5 ∧
      ∃ st, env.fanTuningStates[i]? = some st ∧ st.temperature ≠ Temperature i ∧
        v = Temperature i := by
  simp only [SetFan, List.mem_append, mem_ite_nil_right, List.mem_singleton] at h
  rcases h with ((h | h) | h) | ⟨_, h⟩
  · simp at h
  · simp only [SetFanLoopTrace] at h
    split at h
    · split at h
      · obtain ⟨st, hget, _, hne, hv⟩ := setTemperature_mem_tuneFrom h
        simp only [Nat.sub_zero] at hget
        exact ⟨by assumption, by assumption, st, hget, hne, hv⟩
      · simp at h
    · simp at h
  · simp at h
  · simp at h

theorem tuneFrom_fst_of_length5 : ∀ (states : List FanState), states.length = 5 →
    (tuneFrom 0 states).1 = targetStates
  | [], h => by simp at h
  | [_], h => by simp at h
  | [_, _], h => by simp at h
  | [_, _, _], h => by simp at h
  | [_, _, _, _], h => by simp at h
  | [a, b, c, d, e], _ => by
    simp only [tuneFrom]
    simp only [tuneOneState_fst]
    decide
  | _ :: _ :: _ :: _ :: _ :: _ :: _, h => by
    simp only [List.length_cons] at h
    omega

theorem SetFanStates_of_five {env : Env} (hok : env.getFanTuningStatesOK = true)
    (h5 : env.fanTuningStates.length = 5) : SetFanStates env = some targetStates := by
  unfold SetFanStates
  rw [if_pos hok, if_pos h5, tuneFrom_fst_of_length5 _ h5]

theorem SetFanStates_of_not_five {env : Env} (h : env.fanTuningStates.length ≠ 5) :
    SetFanStates env =
      if env.getFanTuningStatesOK = true then some env.fanTuningStates else none := by
  unfold SetFanStates
  split_ifs <;> simp_all

theorem guards_of_MFT {env : Env} (h : guardMFT env = true) :
    guardInit env = true ∧ guardSvc env = true ∧ guardGpus env = true ∧
      guardGpu env = true ∧ guardSupport env = true := by
  simp only [guardMFT, guardSupport, guardGpu, guardGpus, guardSvc, guardInit,
    Bool.and_eq_true] at h ⊢
  tauto

theorem mainTrace_of_guardMFT {env : Env} (h : guardMFT env = true) :
    mainTrace env =
      [Event.adlxInit, Event.getGPUTuningServices, Event.getGPUs, Event.gpusAt 0,
        Event.isSupportedManualFanTuning, Event.getManualFanTuning]
        ++ SetZeroRPM env false ++ SetFan env ++ [Event.terminate] := by
  obtain ⟨h1, h2, h3, h4, h5⟩ := guards_of_MFT h
  rw [mainTrace_eq, if_pos h1, if_pos h2, if_pos h3, if_pos h4, if_pos h5, if_pos h,
    if_pos h1]
  simp

theorem mainRet_zero (env : Env) : mainRet env = 0 := by
  simp only [mainRet, mainRun, WaitAndExit]
  split_ifs <;> rfl

theorem guardInit_of_gpu {env : Env} (h : guardGpu env = true) : guardInit env = true := by
  simp only [guardGpu, guardGpus, guardSvc, guardInit, Bool.and_eq_true] at h ⊢
  tauto

theorem getZeroRPMState_mem_SetZeroRPM (env : Env) (enabled : Bool) :
    Event.getZeroRPMState ∈ SetZeroRPM env enabled ↔
      env.isSupportedZeroRPMOK = true ∧ env.zeroRPMSupported = true := by
  unfold SetZeroRPM
  split_ifs with h1 h2 <;> simp_all
  rcases h1 with h1 | h1 <;> simp_all

theorem statesAt_mem_tuneFrom_head (crt : Nat) (st : FanState) (rest : List FanState) :
    Event.statesAt crt ∈ (tuneFrom crt (st :: rest)).2 := by
  simp [tuneFrom, tuneOneState]

theorem statesAt_zero_mem_SetFan (env : Env) :
    Event.statesAt 0 ∈ SetFan env ↔
      env.getFanTuningStatesOK = true ∧ env.fanTuningStates.length = 5 := by
  constructor
  · intro h
    simp only [SetFan, List.mem_append, mem_ite_nil_right, List.mem_singleton] at h
    rcases h with (((h | h) | h) | ⟨_, h⟩)
    · simp at h
    · simp only [SetFanLoopTrace] at h
      split at h
      · split at h
        · exact ⟨by assumption, by assumption⟩
        · simp at h
      · simp at h
    · simp at h
    · simp at h
  · rintro ⟨hok, h5⟩
    simp only [SetFan, List.mem_append]
    refine Or.inl (Or.inl (Or.inr ?_))
    simp only [SetFanLoopTrace]
    rw [if_pos hok, if_pos h5]
    cases hx : env.fanTuningStates with
    | nil => rw [hx] at h5; simp at h5
    | cons st rest => exact statesAt_mem_tuneFrom_head 0 st rest

/-! Claim theorems. -/

/-- C1 counterexample: in a run in which initialization, GPU retrieval and
the manual-fan-tuning support check all succeed but `GetFanTuningStates`
fails, no commit (`SetFanTuningStates`) occurs at all, so the program does
not apply the fan curve on every such run as the claim states. -/
theorem C1_counterexample :
    envNoStates.adlxInitOK = true ∧ envNoStates.gpuAtOK = true ∧
      envNoStates.gpuIsNull = false ∧ envNoStates.isSupportedManualFanTuningOK = true ∧
      envNoStates.manualFanTuningSupported = true ∧
      (mainTrace envNoStates).all (fun e => !isCommitEvent e) = true := by
  decide

/-- C1 (amended): in every run in which initialization, the tuning-services
fetch, the GPU fetch, the support check and the interface fetch succeed
(`guardMFT`), the fan-tuning state list is fetched successfully with size
exactly 5, and validation succeeds, the program commits the list holding
exactly the five fixed (temperature, speed) pairs — speeds 25, 45, 50, 65,
90 at temperatures 45, 50, 65, 85, 95. -/
theorem C1_fan_curve_applied (env : Env) (hmft : guardMFT env = true)
    (hok : env.getFanTuningStatesOK = true) (h5 : env.fanTuningStates.length = 5)
    (hvalid : env.isValidFanTuningStatesOK = true) :
    Event.setFanTuningStates (some targetStates) ∈ mainTrace env := by
  rw [setFanTuningStates_mem_mainTrace]
  exact ⟨hmft, hvalid, (SetFanStates_of_five hok h5).symm⟩

/-- C1 witness: the amended claim at a concrete all-success environment
whose fetched list needs tuning everywhere. -/
theorem C1_fan_curve_applied_witness :
    Event.setFanTuningStates (some targetStates) ∈ mainTrace envNeedsTuning :=
  C1_fan_curve_applied envNeedsTuning (by decide) (by decide) (by decide) (by decide)

/-- C2 counterexample: the claimed order and gating are wrong on two points.
The tuning-services interface is fetched before the GPU handle and the
support check happens before the manual-fan-tuning interface fetch (so
"fetch a capability interface" does not sit where the claim puts it under
either reading); and `Terminate` executes on a run in which the earlier
GPU-list step failed, so it is not true that no step executes unless every
earlier step succeeded. -/
theorem C2_counterexample :
    ((mainTrace envAllOK).indexOf Event.getGPUTuningServices <
        (mainTrace envAllOK).indexOf (Event.gpusAt 0) ∧
      (mainTrace envAllOK).indexOf Event.isSupportedManualFanTuning <
        (mainTrace envAllOK).indexOf Event.getManualFanTuning) ∧
      Event.terminate ∈ mainTrace envNoGpus ∧ Event.gpusAt 0 ∉ mainTrace envNoGpus := by
  decide

/-- C2 (amended): the steps occur in the order initialize, fetch tuning
services, fetch GPU list, fetch the GPU handle, check support, fetch the
manual-fan-tuning interface, apply the zero-RPM toggle and the fan-curve
mutation, commit, terminate (the trace is ordered by `stepOf`); each step
occurs exactly under its guard — every earlier call succeeded — except
`Terminate`, which runs whenever initialization succeeded, even after a
later failure. -/
theorem C2_step_order (env : Env) :
    (mainTrace env).Pairwise stepLE ∧
      Event.adlxInit ∈ mainTrace env ∧
      (Event.getGPUTuningServices ∈ mainTrace env ↔ guardInit env = true) ∧
      (Event.getGPUs ∈ mainTrace env ↔ guardSvc env = true) ∧
      (Event.gpusAt 0 ∈ mainTrace env ↔ guardGpus env = true) ∧
      (Event.isSupportedManualFanTuning ∈ mainTrace env ↔ guardGpu env = true) ∧
      (Event.getManualFanTuning ∈ mainTrace env ↔ guardSupport env = true) ∧
      (Event.getFanTuningStates ∈ mainTrace env ↔ guardMFT env = true) ∧
      (Event.terminate ∈ mainTrace env ↔ guardInit env = true) :=
  ⟨pairwise_stepLE_mainTrace env, adlxInit_mem_mainTrace env, svc_mem_mainTrace env,
    getGPUs_mem_mainTrace env, gpusAt_mem_mainTrace env, supportCheck_mem_mainTrace env,
    getMFT_mem_mainTrace env, getFanTuningStates_mem_mainTrace env,
    terminate_mem_mainTrace env⟩

/-- C3 counterexample: not every SDK result is checked — `GetZeroRPMState`'s
result is stored but never tested, so in a run where that call fails and the
out-parameter reads back `true`, the dependent `SetZeroRPMState` write still
executes. -/
theorem C3_counterexample :
    envBadZeroRead.getZeroRPMStateOK = false ∧
      Event.setZeroRPMState false ∈ SetZeroRPM envBadZeroRead false := by
  decide

/-- C3 (amended): the results that guard the call chain are checked — the
zero-RPM read happens only when the zero-RPM support query succeeds and
reports support, the per-state loop runs only when the state-list fetch
succeeds with size 5, and the commit happens exactly when validation
succeeds — but the results of `GetZeroRPMState` (and of the other write and
per-state calls) are not checked: there is a run in which `GetZeroRPMState`
fails and the dependent `SetZeroRPMState` executes anyway. -/
theorem C3_error_checks (env : Env) :
    ((Event.getZeroRPMState ∈ SetZeroRPM env false) ↔
        env.isSupportedZeroRPMOK = true ∧ env.zeroRPMSupported = true) ∧
      ((Event.statesAt 0 ∈ SetFan env) ↔
        env.getFanTuningStatesOK = true ∧ env.fanTuningStates.length = 5) ∧
      ((∃ s, Event.setFanTuningStates s ∈ SetFan env) ↔
        env.isValidFanTuningStatesOK = true) ∧
      (∃ envBad : Env, envBad.getZeroRPMStateOK = false ∧
        Event.setZeroRPMState false ∈ SetZeroRPM envBad false) := by
  refine ⟨getZeroRPMState_mem_SetZeroRPM env false, statesAt_zero_mem_SetFan env, ?_, ?_⟩
  · constructor
    · rintro ⟨s, hs⟩
      exact ((setFanTuningStates_mem_SetFan env s).mp hs).1
    · intro hv
      exact ⟨SetFanStates env, (setFanTuningStates_mem_SetFan env _).mpr ⟨hv, rfl⟩⟩
  · exact ⟨envBadZeroRead, by decide, by decide⟩

/-- C4: on every run, `Terminate` is called exactly once when initialization
succeeded and never when it failed — in particular exactly once on every
path where initialization succeeded, intermediate failures included. -/
theorem C4_terminate_once (env : Env) :
    (mainTrace env).count Event.terminate = if guardInit env = true then 1 else 0 :=
  count_terminate_mainTrace env

/-- C5: the only GPU-list element the program ever queries is index 0, and
when that query fails or yields a null handle the program performs no tuning
operation at all and `main` returns 0. -/
theorem C5_first_gpu (env : Env) :
    (∀ i, Event.gpusAt i ∈ mainTrace env → i = 0) ∧
      ((env.gpuAtOK = false ∨ env.gpuIsNull = true) →
        (mainTrace env).all (fun e => !isTuningEvent e) = true ∧ mainRet env = 0) := by
  refine ⟨fun i h => gpusAt_only_zero env i h, fun h => ⟨no_tuning_of_guardMFT_false ?_,
    mainRet_zero env⟩⟩
  rcases h with h | h <;> simp [guardMFT, guardSupport, guardGpu, h]

/-- C5 witness: at a concrete environment where the GPU fetch fails, the
program performs no tuning operation and returns 0. -/
theorem C5_first_gpu_witness :
    (mainTrace envNoGpu).all (fun e => !isTuningEvent e) = true ∧ mainRet envNoGpu = 0 :=
  (C5_first_gpu envNoGpu).2 (Or.inl (by decide))

/-- C6: when the run reaches the tuning phase and zero RPM is supported on
the selected GPU, the zero-RPM state ends up disabled (`false`), and every
zero-RPM operation — in particular any `SetZeroRPMState false` write, which
happens exactly when the read state was enabled — occurs in the part of the
trace strictly before the fan-curve part (`SetFan`). -/
theorem C6_zero_rpm_toggle (env : Env) (hmft : guardMFT env = true)
    (hok : env.isSupportedZeroRPMOK = true) (hsup : env.zeroRPMSupported = true) :
    SetZeroRPMfinal env false = false ∧
      ∃ pre post, mainTrace env = pre ++ SetFan env ++ post ∧
        (∀ e ∈ SetZeroRPM env false, e ∈ pre) ∧
        (env.zeroRPMState = true → Event.setZeroRPMState false ∈ pre) := by
  constructor
  · unfold SetZeroRPMfinal
    rw [hok, hsup]
    cases hz : env.zeroRPMState <;> simp [hz]
  · refine ⟨[Event.adlxInit, Event.getGPUTuningServices, Event.getGPUs, Event.gpusAt 0,
      Event.isSupportedManualFanTuning, Event.getManualFanTuning] ++ SetZeroRPM env false,
      [Event.terminate], ?_, ?_, ?_⟩
    · rw [mainTrace_of_guardMFT hmft]
    · intro e he
      exact List.mem_append_right _ he
    · intro hz
      apply List.mem_append_right
      rw [setZeroRPMState_mem_SetZeroRPM]
      exact ⟨hok, hsup, by simp [hz], rfl⟩

/-- C6 witness: the toggle at a concrete all-success environment where zero
RPM is currently enabled. -/
theorem C6_zero_rpm_toggle_witness :
    SetZeroRPMfinal envAllOK false = false ∧
      ∃ pre post, mainTrace envAllOK = pre ++ SetFan envAllOK ++ post ∧
        (∀ e ∈ SetZeroRPM envAllOK false, e ∈ pre) ∧
        (envAllOK.zeroRPMState = true → Event.setZeroRPMState false ∈ pre) :=
  C6_zero_rpm_toggle envAllOK (by decide) (by decide) (by decide)

/-- C7: when the run has fetched the GPU but the manual-fan-tuning support
query fails or reports no support, no tuning operation (zero-RPM or
fan-curve, reads and writes alike) appears in the trace, `Terminate` is
still called, and `main` returns 0. -/
theorem C7_support_gate (env : Env) (hgpu : guardGpu env = true)
    (h : env.isSupportedManualFanTuningOK = false ∨ env.manualFanTuningSupported = false) :
    (mainTrace env).all (fun e => !isTuningEvent e) = true ∧
      Event.terminate ∈ mainTrace env ∧ mainRet env = 0 := by
  have hmft : guardMFT env = false := by
    rcases h with h | h <;> simp [guardMFT, guardSupport, h]
  refine ⟨no_tuning_of_guardMFT_false hmft, ?_, mainRet_zero env⟩
  rw [terminate_mem_mainTrace]
  exact guardInit_of_gpu hgpu

/-- C7 witness: the support gate at a concrete environment whose GPU does
not support manual fan tuning. -/
theorem C7_support_gate_witness :
    (mainTrace envUnsupported).all (fun e => !isTuningEvent e) = true ∧
      Event.terminate ∈ mainTrace envUnsupported ∧ mainRet envUnsupported = 0 :=
  C7_support_gate envUnsupported (by decide) (Or.inr (by decide))

/-- C8: on every execution path — success, initialization failure, or any
intermediate SDK failure — `main` returns exit code 0 (every failure path
returns through `WaitAndExit` with code 0). -/
theorem C8_exit_code (env : Env) : mainRet env = 0 :=
  mainRet_zero env

/-- C9: every write is guarded by a differing prior read —
`SetZeroRPMState b` appears in `SetZeroRPM` exactly when zero RPM is
supported, the read state differs from the target, and `b` is the target;
and a `SetFanSpeed`/`SetTemperature` write at state `i` appears in `SetFan`
only when the state read at index `i` holds a speed/temperature different
from the fixed target, and then writes exactly that target. -/
theorem C9_conditional_writes (env : Env) (enabled b : Bool) (i : Nat) (v : Int) :
    (Event.setZeroRPMState b ∈ SetZeroRPM env enabled ↔
        env.isSupportedZeroRPMOK = true ∧ env.zeroRPMSupported = true ∧
          env.zeroRPMState ≠ enabled ∧ b = enabled) ∧
      (Event.setFanSpeed i v ∈ SetFan env →
        ∃ st, env.fanTuningStates[i]? = some st ∧ st.speed ≠ FanSpeed i ∧
          v = FanSpeed i) ∧
      (Event.setTemperature i v ∈ SetFan env →
        ∃ st, env.fanTuningStates[i]? = some st ∧ st.temperature ≠ Temperature i ∧
          v = Temperature i) :=
  ⟨setZeroRPMState_mem_SetZeroRPM env b enabled,
    fun h => (setFanSpeed_mem_SetFan h).2.2,
    fun h => (setTemperature_mem_SetFan h).2.2⟩

/-- C9 witness: at a concrete environment whose states all differ from the
target curve, the speed write at index 0 is present and the theorem yields
the differing read. -/
theorem C9_conditional_writes_witness :
    ∃ st, envNeedsTuning.fanTuningStates[0]? = some st ∧ st.speed ≠ FanSpeed 0 ∧
      (25 : Int) = FanSpeed 0 :=
  (C9_conditional_writes envNeedsTuning false false 0 25).2.1 (by decide)

/-- C10: individual fan-tuning states are mutated only when the fetched list
has size exactly 5 — for any other size there is no per-state write and the
list passed on is the fetched list unchanged (or null when the fetch
failed) — and in every case the commit `SetFanTuningStates s` occurs exactly
when validation succeeds and `s` is that (possibly unmodified) list. -/
theorem C10_size_guard_and_commit (env : Env) (s : Option (List FanState)) :
    (env.fanTuningStates.length ≠ 5 →
        SetFanStates env =
          (if env.getFanTuningStatesOK = true then some env.fanTuningStates else none) ∧
        ∀ i v, Event.setFanSpeed i v ∉ SetFan env ∧
          Event.setTemperature i v ∉ SetFan env) ∧
      (Event.setFanTuningStates s ∈ SetFan env ↔
        env.isValidFanTuningStatesOK = true ∧ s = SetFanStates env) := by
  constructor
  · intro h5
    refine ⟨SetFanStates_of_not_five h5, fun i v => ⟨fun hmem => ?_, fun hmem => ?_⟩⟩
    · exact h5 (setFanSpeed_mem_SetFan hmem).2.1
    · exact h5 (setTemperature_mem_SetFan hmem).2.1
  · exact setFanTuningStates_mem_SetFan env s

/-- C10 witness: at a concrete environment whose fetched list has size 3,
the list passed to validation is the fetched list unchanged. -/
theorem C10_size_guard_and_commit_witness :
    envShortList.fanTuningStates.length ≠ 5 ∧
      SetFanStates envShortList =
        (if envShortList.getFanTuningStatesOK = true then some envShortList.fanTuningStates
          else none) :=
  ⟨by decide, ((C10_size_guard_and_commit envShortList none).1 (by decide)).1⟩
